import Mathlib

/-!
Verification of the rotating-cube WebGL demo (`src/main.rs`) against its
natural-language specification.  The Rust source is shallowly embedded:

* `rotationMatrixY` mirrors `rotation_matrix_y` (main.rs lines 10-15); the
  `f32` trigonometry is modelled over the reals.
* `vertices`, `colors`, `indexArray` mirror the fixed mesh arrays
  (main.rs lines 158-180); the exact decimal literals are represented as
  rationals, which is faithful because 0.4 and 0.2 are the intended values.
* `initSetup` mirrors the one-time initializer body (main.rs lines 70-349)
  as a trace of graphics calls parameterised by the environment's answers
  (context acquisition, compile/link status, attribute locations).  The
  `.unwrap()` panic on context-acquisition failure is modelled by the
  `crashed` outcome, which aborts the function before any graphics call.
* `tick` mirrors one pass of the animation closure (main.rs lines 274-332)
  as a state update plus a trace of events, parameterised by the value the
  error query returns.
* `processSignals` mirrors the mount-effect guard (main.rs lines 46-68):
  a `Once` cell consulted on every invocation whose signal reads true.
-/

namespace CubeDemo

open Matrix

/-- Flat column-major 4x4 Y-axis rotation matrix, mirroring
`rotation_matrix_y` (main.rs lines 10-15): `let (s, c) = angle.sin_cos()`
followed by the literal array `[c,0,s,0, 0,1,0,0, -s,0,c,0, 0,0,0,1]`. -/
noncomputable def rotationMatrixY (angle : ℝ) : List ℝ :=
  let s := Real.sin angle
  let c := Real.cos angle
  [c, 0, s, 0, 0, 1, 0, 0, -s, 0, c, 0, 0, 0, 0, 1]

/-- Interpret a flat list as a 4x4 matrix in column-major layout, the
convention the graphics API uses for `uniform_matrix4fv`. -/
def matOfColMajor (l : List ℝ) : Matrix (Fin 4) (Fin 4) ℝ :=
  Matrix.of fun i j => l.getD (4 * j.val + i.val) 0

/-- The rotation matrix as a Mathlib matrix. -/
noncomputable def rotY (angle : ℝ) : Matrix (Fin 4) (Fin 4) ℝ :=
  matOfColMajor (rotationMatrixY angle)

lemma rotY_eq (a : ℝ) :
    rotY a = !![Real.cos a, 0, -Real.sin a, 0;
                0, 1, 0, 0;
                Real.sin a, 0, Real.cos a, 0;
                0, 0, 0, 1] := by
  ext i j
  fin_cases i <;> fin_cases j <;> rfl

lemma rotY_transpose_eq (a : ℝ) :
    (rotY a)ᵀ = !![Real.cos a, 0, Real.sin a, 0;
                   0, 1, 0, 0;
                   -Real.sin a, 0, Real.cos a, 0;
                   0, 0, 0, 1] := by
  ext i j
  fin_cases i <;> fin_cases j <;> rfl

lemma rotY_mul_transpose (a : ℝ) : rotY a * (rotY a)ᵀ = 1 := by
  rw [rotY_transpose_eq, rotY_eq]
  ext i j
  fin_cases i <;> fin_cases j <;>
    simp [Matrix.mul_apply, Fin.sum_univ_four, Matrix.one_apply,
      Matrix.vecHead, Matrix.vecTail] <;>
    nlinarith [Real.sin_sq_add_cos_sq a]

lemma rotY_det (a : ℝ) : (rotY a).det = 1 := by
  rw [rotY_eq, Matrix.det_succ_row_zero]
  simp [Fin.sum_univ_succ, Fin.succAbove, Matrix.det_fin_three]
  nlinarith [Real.sin_sq_add_cos_sq a]

lemma rotY_fixes_y_axis (a y : ℝ) :
    (rotY a).mulVec ![0, y, 0, 1] = ![0, y, 0, 1] := by
  rw [rotY_eq]
  funext i
  fin_cases i <;>
    simp [Matrix.mulVec, Matrix.dotProduct, Fin.sum_univ_four]

/-- C2: for every angle, the matrix returned by `rotation_matrix_y`
(read column-major) is a valid rotation matrix — orthogonal, of
determinant one, and it fixes every point on the vertical axis,
homogeneous points `(0, y, 0, 1)` included. -/
theorem rotationMatrixY_is_rotation (a y : ℝ) :
    rotY a * (rotY a)ᵀ = 1 ∧ (rotY a).det = 1 ∧
      (rotY a).mulVec ![0, y, 0, 1] = ![0, y, 0, 1] :=
  ⟨rotY_mul_transpose a, rotY_det a, rotY_fixes_y_axis a y⟩

/-- The fixed vertex-position array (main.rs lines 158-163): four
front-face corners at z = 0.2 and four back-face corners at z = -0.2,
x and y ranging over plus/minus 0.4.  The exact decimal literals are
represented as rationals. -/
def vertices : List ℚ :=
  [-0.4, -0.4, 0.2, 0.4, -0.4, 0.2, 0.4, 0.4, 0.2, -0.4, 0.4, 0.2,
   -0.4, -0.4, -0.2, 0.4, -0.4, -0.2, 0.4, 0.4, -0.2, -0.4, 0.4, -0.2]

/-- The fixed per-vertex color array (main.rs lines 165-170). -/
def colors : List ℚ :=
  [1, 0, 0, 0, 1, 0, 0, 0, 1, 1, 1, 0,
   1, 0, 1, 0, 1, 1, 1, 1, 1, 0.5, 0.5, 0.5]

/-- The fixed index array (main.rs lines 172-180): 36 `u16` entries,
six faces of two triangles each. -/
def indices : List ℕ :=
  [0, 1, 2, 2, 3, 0,
   4, 6, 5, 6, 4, 7,
   4, 0, 3, 3, 7, 4,
   1, 5, 6, 6, 2, 1,
   3, 2, 6, 6, 7, 3,
   4, 5, 1, 1, 0, 4]

/-- C3: the fixed index array has exactly 36 entries — exactly 12
triangles of 3 indices each — and every entry is a valid index into the
8-vertex mesh, i.e. lies in [0,7]. -/
theorem indices_valid :
    indices.length = 36 ∧ indices.length = 3 * 12 ∧
      indices.all (fun i => i ≤ 7) = true := by
  decide

/-- The i-th vertex position of the mesh, as an (x, y, z) triple. -/
def vtx (i : ℕ) : ℚ × ℚ × ℚ :=
  (vertices.getD (3 * i) 0, vertices.getD (3 * i + 1) 0,
    vertices.getD (3 * i + 2) 0)

/-- Squared Euclidean distance between two vertex positions. -/
def sqDist (p q : ℚ × ℚ × ℚ) : ℚ :=
  (p.1 - q.1) ^ 2 + (p.2.1 - q.2.1) ^ 2 + (p.2.2 - q.2.2) ^ 2

/-- The 12 edges of the 8-corner box, as vertex-index pairs: four front
edges, four back edges, four front-to-back edges. -/
def boxEdges : List (ℕ × ℕ) :=
  [(0, 1), (1, 2), (2, 3), (3, 0),
   (4, 5), (5, 6), (6, 7), (7, 4),
   (0, 4), (1, 5), (2, 6), (3, 7)]

/-- Whether all 12 edges of the mesh have the same squared length,
i.e. whether the box is a cube. -/
def allEdgesEqual : Bool :=
  boxEdges.all fun e =>
    decide (sqDist (vtx e.1) (vtx e.2) = sqDist (vtx 0) (vtx 1))

/-- C6 counterexample: the vertex array is not a cube — the front-face
edge from vertex 0 to vertex 1 has squared length 16/25 (length 0.8)
while the front-to-back edge from vertex 0 to vertex 4 has squared
length 4/25 (length 0.4), so not all 12 edges are equal and the extent
differs between the x and z axes. -/
theorem vertices_not_a_cube :
    allEdgesEqual = false ∧
      sqDist (vtx 0) (vtx 1) = 16 / 25 ∧
      sqDist (vtx 0) (vtx 4) = 4 / 25 := by
  norm_num [allEdgesEqual, boxEdges, sqDist, vtx, vertices, List.getD]

/-- Whether the vertex array lists the 8 pairwise-distinct corners of the
axis-aligned rectangular box with half-extents (0.4, 0.4, 0.2): the eight
x-and-y-direction edges have squared length 16/25 and the four
z-direction edges squared length 4/25. -/
def verticesFormBox : Bool :=
  ((List.range 8).all fun i =>
      decide (|(vtx i).1| = 2 / 5) && decide (|(vtx i).2.1| = 2 / 5) &&
        decide (|(vtx i).2.2| = 1 / 5))
    && decide (((List.range 8).map vtx).Nodup)
    && ((boxEdges.take 8).all fun e =>
        decide (sqDist (vtx e.1) (vtx e.2) = 16 / 25))
    && ((boxEdges.drop 8).all fun e =>
        decide (sqDist (vtx e.1) (vtx e.2) = 4 / 25))

/-- C6 amended: the fixed vertex-position array encodes the 8 pairwise
distinct corners of a closed axis-aligned rectangular box of extent
0.8 x 0.8 x 0.4 — equal along x and y but half as deep along z — not a
cube with all 12 edges equal. -/
theorem vertices_form_box : verticesFormBox = true := by
  norm_num [verticesFormBox, vtx, vertices, sqDist, boxEdges,
    List.range_succ, List.getD, Prod.ext_iff]

/-- One invocation of the guarded mount effect per signal value
(main.rs lines 46-68): an invocation that reads a false `canvas_mounted`
signal returns before the guard; one that reads true consults the
`INIT_ONCE` cell, which grants `should_init` only on the first call.
`processSignals sigs used` counts how many times the guarded setup body
runs across the invocation sequence `sigs` starting with guard state
`used`. -/
def processSignals : List Bool → Bool → ℕ
  | [], _ => 0
  | mounted :: rest, used =>
    if mounted then
      (if used then 0 else 1) + processSignals rest true
    else
      processSignals rest used

lemma processSignals_used (sigs : List Bool) : processSignals sigs true = 0 := by
  induction sigs with
  | nil => rfl
  | cons s rest ih => cases s <;> simp [processSignals, ih]

lemma processSignals_fresh (sigs : List Bool) :
    processSignals sigs false = if true ∈ sigs then 1 else 0 := by
  induction sigs with
  | nil => rfl
  | cons s rest ih =>
    cases s <;> simp [processSignals, ih, processSignals_used]

/-- C1: across any sequence of mount-effect invocations starting from the
fresh guard state, the guarded setup body runs at most once, and exactly
once as soon as some invocation sees a true mount signal — every later
invocation is a no-op. -/
theorem setup_runs_once (sigs : List Bool) :
    processSignals sigs false ≤ 1 ∧
      (true ∈ sigs → processSignals sigs false = 1) := by
  rw [processSignals_fresh]
  constructor
  · split <;> simp
  · intro h
    simp [h]

/-- C1 witness: three mount invocations that all see a mounted canvas run
the setup body exactly once. -/
theorem setup_runs_once_witness :
    true ∈ [true, true, true] ∧
      processSignals [true, true, true] false = 1 :=
  ⟨by decide, (setup_runs_once [true, true, true]).2 (by decide)⟩

/-- Observable events of one pass of the animation closure
(main.rs lines 274-332).  Numeric constants are the WebGL enum values:
mode 4 is TRIANGLES, type 5123 is UNSIGNED_SHORT. -/
inductive TickEvent where
  | logFrame
  | clearColor
  | clear
  | uniformMatrix (m : List ℝ)
  | bindIndexBuffer
  | drawElements (mode count ty : ℕ)
  | logErrorCode (code : ℕ)
  | requestFrame

/-- Mutable state the animation closure owns: the shared `angle` cell
(main.rs line 268, initially 0.0) and the `frame_count` cell
(main.rs line 273, initially 0). -/
structure TickState where
  angle : ℝ
  frameCount : ℕ

/-- One tick of the animation closure (main.rs lines 274-332),
parameterised by the value `gl.get_error()` returns on that tick:
read the angle, bump the frame counter (logging every 60th frame),
clear, upload `rotation_matrix_y(current_angle)` to the uniform, bind the
index buffer, draw `indices.len()` elements as triangles, log a
diagnostic when the error query is non-clear, advance the angle by 0.02,
and request the next animation frame. -/
noncomputable def tick (st : TickState) (errCode : ℕ) :
    TickState × List TickEvent :=
  let currentAngle := st.angle
  let count := st.frameCount + 1
  let events :=
    (if count % 60 = 0 then [TickEvent.logFrame] else [])
      ++ [TickEvent.clearColor, TickEvent.clear,
          TickEvent.uniformMatrix (rotationMatrixY currentAngle),
          TickEvent.bindIndexBuffer,
          TickEvent.drawElements 4 indices.length 5123]
      ++ (if errCode ≠ 0 then [TickEvent.logErrorCode errCode] else [])
      ++ [TickEvent.requestFrame]
  (⟨currentAngle + 0.02, count⟩, events)

/-- Whether a tick event is an indexed draw call. -/
def isDraw : TickEvent → Bool
  | .drawElements _ _ _ => true
  | _ => false

/-- C5: every tick of the frame loop issues exactly one draw call — an
indexed triangle-list draw (mode TRIANGLES, type UNSIGNED_SHORT) whose
index count is exactly 36 — whatever the current state and whatever the
error query returns. -/
theorem tick_draws_once (st : TickState) (errCode : ℕ) :
    ((tick st errCode).2.filter isDraw) =
      [TickEvent.drawElements 4 36 5123] := by
  by_cases h60 : (st.frameCount + 1) % 60 = 0 <;>
    by_cases he : errCode = 0 <;>
      simp [tick, h60, he, isDraw, indices]

/-- The angle cell across scheduled ticks: initially 0.0 (main.rs
line 268), then updated by each tick of the loop. -/
noncomputable def loopState : ℕ → TickState
  | 0 => ⟨0, 0⟩
  | n + 1 => (tick (loopState n) 0).1

/-- C4: after N ticks of the frame loop the angle equals 0.02 x N, for
every N — the value grows without bound and is never reduced mod 2 pi. -/
theorem angle_after_ticks (n : ℕ) : (loopState n).angle = 0.02 * n := by
  induction n with
  | zero => simp [loopState]
  | succ k ih =>
    simp [loopState, tick, ih]
    ring

/-- C9: a non-clear error query is non-fatal: on such a tick a diagnostic
carrying the error code is logged, yet the angle still advances by 0.02,
the next frame is still requested, and both the resulting state and the
draw calls issued are exactly those of an error-free tick. -/
theorem tick_error_nonfatal (st : TickState) (errCode : ℕ)
    (h : errCode ≠ 0) :
    TickEvent.logErrorCode errCode ∈ (tick st errCode).2 ∧
      (tick st errCode).1.angle = st.angle + 0.02 ∧
      TickEvent.requestFrame ∈ (tick st errCode).2 ∧
      (tick st errCode).1 = (tick st 0).1 ∧
      (tick st errCode).2.filter isDraw = (tick st 0).2.filter isDraw := by
  refine ⟨?_, rfl, ?_, rfl, ?_⟩
  · by_cases h60 : (st.frameCount + 1) % 60 = 0 <;> simp [tick, h, h60]
  · by_cases h60 : (st.frameCount + 1) % 60 = 0 <;> simp [tick, h, h60]
  · rw [tick_draws_once, tick_draws_once]

/-- C9 witness: a tick that reads error code 1282 (GL_INVALID_OPERATION)
from the initial state logs the code and otherwise behaves like an
error-free tick. -/
theorem tick_error_nonfatal_witness :
    TickEvent.logErrorCode 1282 ∈ (tick ⟨0, 0⟩ 1282).2 ∧
      (tick ⟨0, 0⟩ 1282).1.angle = (0 : ℝ) + 0.02 ∧
      TickEvent.requestFrame ∈ (tick ⟨0, 0⟩ 1282).2 ∧
      (tick ⟨0, 0⟩ 1282).1 = (tick ⟨0, 0⟩ 0).1 ∧
      (tick ⟨0, 0⟩ 1282).2.filter isDraw =
        (tick ⟨0, 0⟩ 0).2.filter isDraw :=
  tick_error_nonfatal ⟨0, 0⟩ 1282 (by decide)

/-- C10: the matrix a tick uploads to the `modelViewMatrix` uniform is
computed from the angle as it stood before that tick's increment, while
the post-tick angle is 0.02 larger; and on the very first tick that angle
is 0.0, whose matrix `rotation_matrix_y(0.0)` is the identity. -/
theorem tick_uploads_pre_increment_matrix (st : TickState) (errCode : ℕ) :
    TickEvent.uniformMatrix (rotationMatrixY st.angle) ∈
        (tick st errCode).2 ∧
      (tick st errCode).1.angle = st.angle + 0.02 ∧
      (loopState 0).angle = 0 ∧
      rotationMatrixY 0 =
        [1, 0, 0, 0, 0, 1, 0, 0, 0, 0, 1, 0, 0, 0, 0, 1] ∧
      rotY 0 = 1 := by
  refine ⟨?_, rfl, rfl, ?_, ?_⟩
  · by_cases h60 : (st.frameCount + 1) % 60 = 0 <;>
      by_cases he : errCode = 0 <;> simp [tick, h60, he]
  · simp [rotationMatrixY]
  · rw [rotY_eq]
    ext i j
    fin_cases i <;> fin_cases j <;>
      simp [Matrix.one_apply, Matrix.vecHead, Matrix.vecTail]

/-- Graphics and logging calls the one-time initializer can make
(main.rs lines 70-349).  Numeric payloads are the WebGL enum values:
2929 DEPTH_TEST, 2884 CULL_FACE, 35633 VERTEX_SHADER, 35632
FRAGMENT_SHADER, 34962 ARRAY_BUFFER, 34963 ELEMENT_ARRAY_BUFFER. -/
inductive GlCall where
  | logInfo
  | logError
  | viewport
  | disableCap (cap : ℕ)
  | createShader (kind : ℕ)
  | shaderSource
  | compileShader
  | createProgram
  | attachShader
  | linkProgram
  | useProgram
  | createBuffer
  | bindBuffer (target : ℕ)
  | bufferData (target : ℕ)
  | getAttribLocation
  | enableVertexAttribArray (loc : ℕ)
  | vertexAttribPointer (loc : ℕ)
  | startLoop
  deriving DecidableEq

/-- How the initializer ends: `crashed` models the `.unwrap()` panic on a
failed context acquisition (main.rs lines 80-85), which terminates the
task — the web runtime surfaces the panic message as a console error;
`aborted` is an early `return` after logging a diagnostic; `started`
means the animation loop was scheduled. -/
inductive InitOutcome where
  | crashed
  | aborted
  | started
  deriving DecidableEq

/-- Answers the browser environment gives to the initializer's fallible
queries: whether context acquisition succeeds, the compile status of the
two shaders, the program link status, and the two attribute locations. -/
structure GlEnv where
  ctxOk : Bool
  vertCompileOk : Bool
  fragCompileOk : Bool
  linkOk : Bool
  posLoc : ℤ
  colorLoc : ℤ

/-- The one-time initializer body (main.rs lines 70-349) as an outcome
plus the ordered trace of calls it makes: log, acquire the context
(crashing on failure), configure viewport and capabilities, compile the
two shaders and link the program (each failure logging and aborting),
upload the three buffers, resolve the two attribute locations (negative
locations logging and aborting before any attribute is enabled or
pointed at a buffer), bind the attributes, and start the loop. -/
def initSetup (env : GlEnv) : InitOutcome × List GlCall :=
  if ¬ env.ctxOk then (.crashed, [.logInfo])
  else
    let pre := [GlCall.logInfo, .viewport, .disableCap 2929,
      .disableCap 2884, .logInfo, .createShader 35633, .shaderSource,
      .compileShader]
    if ¬ env.vertCompileOk then (.aborted, pre ++ [.logError])
    else
      let pre := pre ++ [GlCall.createShader 35632, .shaderSource,
        .compileShader]
      if ¬ env.fragCompileOk then (.aborted, pre ++ [.logError])
      else
        let pre := pre ++ [GlCall.createProgram, .attachShader,
          .attachShader, .linkProgram]
        if ¬ env.linkOk then (.aborted, pre ++ [.logError])
        else
          let pre := pre ++ [GlCall.useProgram, .logInfo,
            .createBuffer, .bindBuffer 34962, .bufferData 34962,
            .createBuffer, .bindBuffer 34962, .bufferData 34962,
            .createBuffer, .bindBuffer 34963, .bufferData 34963,
            .getAttribLocation, .getAttribLocation, .logInfo]
          if env.posLoc < 0 ∨ env.colorLoc < 0 then
            (.aborted, pre ++ [.logError])
          else
            (.started, pre ++
              [GlCall.bindBuffer 34962,
               .enableVertexAttribArray env.posLoc.toNat,
               .vertexAttribPointer env.posLoc.toNat,
               .bindBuffer 34962,
               .enableVertexAttribArray env.colorLoc.toNat,
               .vertexAttribPointer env.colorLoc.toNat,
               .logInfo, .startLoop, .logInfo])

/-- Whether a call binds a buffer to a vertex attribute slot. -/
def isAttribSetup : GlCall → Bool
  | .enableVertexAttribArray _ => true
  | .vertexAttribPointer _ => true
  | _ => false

/-- Whether a call creates, fills or uses a shader, program or buffer. -/
def isResourceCall : GlCall → Bool
  | .createShader _ => true
  | .shaderSource => true
  | .compileShader => true
  | .createProgram => true
  | .attachShader => true
  | .linkProgram => true
  | .useProgram => true
  | .createBuffer => true
  | .bindBuffer _ => true
  | .bufferData _ => true
  | _ => false

/-- C7: when setup reaches attribute resolution and either location comes
back negative, the initializer logs a diagnostic and returns: no buffer
is ever bound to an attribute slot and the render loop is never
started. -/
theorem negative_attrib_aborts (env : GlEnv)
    (hc : env.ctxOk = true) (hv : env.vertCompileOk = true)
    (hf : env.fragCompileOk = true) (hl : env.linkOk = true)
    (hloc : env.posLoc < 0 ∨ env.colorLoc < 0) :
    (initSetup env).1 = .aborted ∧
      GlCall.logError ∈ (initSetup env).2 ∧
      (initSetup env).2.filter isAttribSetup = [] ∧
      GlCall.startLoop ∉ (initSetup env).2 := by
  simp [initSetup, hc, hv, hf, hl, if_pos hloc, isAttribSetup]

/-- C7 witness: with a healthy context, shaders and program but a
position-attribute location of -1, setup aborts with a diagnostic,
binds nothing to an attribute slot, and never starts the loop. -/
theorem negative_attrib_aborts_witness :
    (initSetup ⟨true, true, true, true, -1, 0⟩).1 = .aborted ∧
      GlCall.logError ∈ (initSetup ⟨true, true, true, true, -1, 0⟩).2 ∧
      (initSetup ⟨true, true, true, true, -1, 0⟩).2.filter isAttribSetup
          = [] ∧
      GlCall.startLoop ∉ (initSetup ⟨true, true, true, true, -1, 0⟩).2 :=
  negative_attrib_aborts ⟨true, true, true, true, -1, 0⟩ rfl rfl rfl rfl
    (Or.inl (by decide))

/-- C8: when context acquisition fails, the initializer stops at the
panicking unwrap — its whole trace is the single informational log that
precedes the acquisition, so no shader is created, sourced or compiled,
no program is created or linked, no buffer is created, bound or filled,
and the loop never starts. -/
theorem context_failure_no_calls (env : GlEnv) (hc : env.ctxOk = false) :
    (initSetup env).1 = .crashed ∧
      (initSetup env).2 = [GlCall.logInfo] ∧
      (initSetup env).2.filter isResourceCall = [] ∧
      GlCall.startLoop ∉ (initSetup env).2 := by
  simp [initSetup, hc, isResourceCall]

/-- C8 witness: an environment whose context acquisition fails yields the
crashed outcome with only the initial log in the trace. -/
theorem context_failure_no_calls_witness :
    (initSetup ⟨false, true, true, true, 0, 0⟩).1 = .crashed ∧
      (initSetup ⟨false, true, true, true, 0, 0⟩).2 = [GlCall.logInfo] ∧
      (initSetup ⟨false, true, true, true, 0, 0⟩).2.filter isResourceCall
          = [] ∧
      GlCall.startLoop ∉ (initSetup ⟨false, true, true, true, 0, 0⟩).2 :=
  context_failure_no_calls ⟨false, true, true, true, 0, 0⟩ rfl

end CubeDemo
